import Mathlib

/-!
Shallow embedding of the Terraform plugin core of the garden repository
(src/garden-service/src/plugins/terraform/common.ts and commands.ts).

External processes (the terraform binary) are modelled by environments that
supply the results the process calls would return; side effects (file writes,
init runs, warnings printed) are recorded in explicit traces.  Status-line
updates (setSuccess / setError / setWarn) are presentation-only and are not
modelled; operator-facing warnings emitted through `logEntry.warn` are.
ANSI color codes added by the chalk library are presentation-only and omitted
from the modelled strings.
-/

/-- A JSON/JavaScript primitive value, per the `PrimitiveMap` schema used for
terraform variables in this code base (string, number, boolean, null).
Numbers are modelled as integers; floating-point formatting is not exercised
by any property considered here. -/
inductive Primitive where
  | str (s : String)
  | num (n : Int)
  | bool (b : Bool)
  | null
deriving DecidableEq

/-- A JSON value as returned by `terraform output -json`, including the
JavaScript `undefined` produced by accessing a missing property. -/
inductive TfJson where
  | prim (p : Primitive)
  | obj (fields : List (String × TfJson))
  | arr (elems : List TfJson)
  | undef

/-- The `valid` field of the `terraform validate -json` body as a JavaScript
value.  Terraform emits a JSON boolean, but common.ts compares the field both
with `false` (line 50) and with the string `"false"` (line 64), so both shapes
are kept representable to model strict equality (`===`) faithfully. -/
inductive JsValue where
  | bool (b : Bool)
  | str (s : String)
deriving DecidableEq

/-- One entry of the `diagnostics` array of the validate JSON body. -/
structure Diagnostic where
  severity : String
  summary : String
  detail : Option String
deriving DecidableEq

/-- The decoded body of `terraform validate -json`. -/
structure ValidationResult where
  valid : JsValue
  diagnostics : List Diagnostic
deriving DecidableEq

/-- Captured result of a non-interactive process invocation. -/
structure ProcessResult where
  exitCode : Int
  stdout : String
  stderr : String
deriving DecidableEq

/-- The error taxonomy of the plugin, with the detail payloads each error
carries in the source (`new XError(message, detail)`). -/
inductive TfError where
  | configurationError (message : String) (result : ValidationResult)
  | pluginError (message : String) (exitCode : Int) (stdout stderr : String)
  | runtimeError (message : String) (stdout stderr : String) (code : Int)
  | parameterError (message : String)
  | processError (message : String)
deriving DecidableEq

/-- Model of Node `path.resolve(base, rel)` for the only shape occurring in
this code base: an absolute `base` directory and a plain relative filename. -/
def pathResolve (base rel : String) : String :=
  base ++ "/" ++ rel

/-- Hexadecimal digit (lowercase), used for JSON control-character escapes. -/
def hexDigit (n : Nat) : Char :=
  if n < 10 then Char.ofNat (48 + n) else Char.ofNat (87 + n % 16)

/-- JSON escaping of a single character, as performed by `JSON.stringify`. -/
def jsonEscapeChar (c : Char) : String :=
  if c = '"' then "\\\""
  else if c = '\\' then "\\\\"
  else if c = '\x08' then "\\b"
  else if c = '\x09' then "\\t"
  else if c = '\x0a' then "\\n"
  else if c = '\x0c' then "\\f"
  else if c = '\x0d' then "\\r"
  else if c.toNat < 32 then
    "\\u00" ++ String.mk [hexDigit (c.toNat / 16), hexDigit (c.toNat % 16)]
  else String.singleton c

/-- `JSON.stringify` of a string value. -/
def jsonEscapeString (s : String) : String :=
  "\"" ++ String.join (s.data.map jsonEscapeChar) ++ "\""

/-- `JSON.stringify` of a primitive value. -/
def Primitive.stringify : Primitive → String
  | .str s => jsonEscapeString s
  | .num n => toString n
  | .bool b => if b then "true" else "false"
  | .null => "null"

/-- `JSON.stringify` of a flat object mapping variable names to primitives,
the shape of the `variables` maps this plugin serializes. -/
def jsonStringifyPrimMap (vs : List (String × Primitive)) : String :=
  "\x7b" ++ String.intercalate ","
    (vs.map (fun kv => jsonEscapeString kv.1 ++ ":" ++ kv.2.stringify)) ++ "\x7d"

/-- Result of `prepareVariables`: the argument list it returns and the file
writes it performs (path, content). -/
structure PrepareResult where
  args : List String
  writes : List (String × String)
deriving DecidableEq

/-- common.ts lines 230-239.  The source parameter is named `variables`, a
reserved word in Lean, so it is called `vars` here; it is `Option` because the
source parameter is optional (`variables?: object`): `none` models an absent or
undefined argument, and the JavaScript `variables || \x7b\x7d` default is
modelled by `getD []`. -/
def prepareVariables (targetDir : String) (vars : Option (List (String × Primitive))) :
    PrepareResult :=
  if (vars.getD []).length = 0 then
    { args := [], writes := [] }
  else
    let path := pathResolve targetDir "garden.tfvars.json"
    { args := ["-var-file", path],
      writes := [(path, jsonStringifyPrimMap (vars.getD []))] }

/-- Uppercase the first character of a string (lodash `upperFirst`). -/
def upperFirst (s : String) : String :=
  match s.data with
  | [] => ""
  | c :: cs => String.mk (c.toUpper :: cs)

/-- Whether a character belongs to a word for the purposes of `startCase`. -/
def isWordChar (c : Char) : Bool :=
  c.isAlpha || c.isDigit

/-- A word boundary inside a run of word characters, as lodash `words`
recognizes for ASCII input: lowercase-to-uppercase and letter/digit
transitions. -/
def wordBoundary (prev c : Char) : Bool :=
  (prev.isLower && c.isUpper) || (prev.isAlpha && c.isDigit) || (prev.isDigit && c.isAlpha)

/-- Split a string into words, per lodash `words` restricted to ASCII input
(the severities terraform emits are plain lowercase ASCII words).
State: (finished words, current word reversed, previous word char). -/
def asciiWords (s : String) : List String :=
  let step := fun (st : List String × List Char × Option Char) (c : Char) =>
    if isWordChar c then
      match st.2.2 with
      | some p =>
        if wordBoundary p c then (st.1 ++ [String.mk st.2.1.reverse], [c], some c)
        else (st.1, c :: st.2.1, some c)
      | none => (st.1, c :: st.2.1, some c)
    else
      if st.2.1.isEmpty then (st.1, [], none)
      else (st.1 ++ [String.mk st.2.1.reverse], [], none)
  let fin := s.data.foldl step ([], [], none)
  if fin.2.1.isEmpty then fin.1 else fin.1 ++ [String.mk fin.2.1.reverse]

/-- lodash `startCase` for ASCII input: split into words, uppercase the first
letter of each, join with single spaces. -/
def startCase (s : String) : String :=
  String.intercalate " " ((asciiWords s).map upperFirst)

/-- The `dedent` helper comes from the repository module util/string, which is
not under src/.  Modelled from the spec: the spec describes the validation
failure message as exactly the formatted diagnostics joined under a header,
with no whitespace transformation, so `dedent` is modelled as the identity
(the template it is applied to in common.ts line 88 has no indented lines). -/
def dedent (s : String) : String :=
  s

/-- One formatted diagnostic, common.ts line 87:
`startCase(d.severity) ++ ": " ++ d.summary ++ "\n" ++ (d.detail || "")`. -/
def formatDiagnostic (d : Diagnostic) : String :=
  startCase d.severity ++ ": " ++ d.summary ++ "\n" ++ d.detail.getD ""

/-- common.ts lines 86-91: build the ConfigurationError for a failed
validation, carrying the raw result as detail. -/
def tfValidationError (result : ValidationResult) : TfError :=
  TfError.configurationError
    (dedent ("Failed validating Terraform configuration:\n\n" ++
      String.intercalate "\n" (result.diagnostics.map formatDiagnostic)))
    result

/-- Environment for one `tfValidate` call: the decoded body the first
`terraform validate -json` invocation returns, and the body a retried
invocation would return (consumed only if the retry happens). -/
structure ValidateEnv where
  firstRes : ValidationResult
  retryRes : ValidationResult
deriving DecidableEq

/-- Side effects of a `tfValidate` call: how many `terraform init` runs and
how many `terraform validate -json` runs were performed. -/
structure ValidateTrace where
  initCalls : Nat
  validateCalls : Nat
deriving DecidableEq

/-- common.ts lines 39-71, `tfValidate`.  The first validate invocation always
happens; if its body reports `valid === false` and some diagnostic summary is
one of the two recoverable phrases, the code runs `terraform init` and retries
validation once.  Note the source compares the retried body with the STRING
`"false"` (line 64: `retryRes.valid === "false"`), not the boolean. -/
def tfValidate (env : ValidateEnv) : Except TfError Unit × ValidateTrace :=
  let res := env.firstRes
  if res.valid = JsValue.bool false then
    let reasons := res.diagnostics.map (fun d => d.summary)
    if reasons.contains "Could not satisfy plugin requirements" ||
        reasons.contains "Module not installed" then
      let retryRes := env.retryRes
      if retryRes.valid = JsValue.str "false" then
        (Except.error (tfValidationError retryRes), ⟨1, 2⟩)
      else
        (Except.ok (), ⟨1, 2⟩)
    else
      (Except.error (tfValidationError res), ⟨0, 1⟩)
  else
    (Except.ok (), ⟨0, 1⟩)

/-- JavaScript property access `v[key]` on a decoded JSON value: yields the
field when `v` is an object that has it, `undefined` otherwise. -/
def jsGet (v : TfJson) (key : String) : TfJson :=
  match v with
  | TfJson.obj fields =>
    match fields.find? (fun kv => kv.1 == key) with
    | some kv => kv.2
    | none => TfJson.undef
  | _ => TfJson.undef

/-- common.ts lines 73-80, `getTfOutputs`: `mapValues(res, (v) => v.value)`
over the decoded body of `terraform output -json`. -/
def getTfOutputs (res : List (String × TfJson)) : List (String × TfJson) :=
  res.map (fun kv => (kv.1, jsGet kv.2 "value"))

/-- common.ts lines 23-28.  The chalk color wrappers are presentation-only and
the `deline` helper (repository util/string, not under src/) collapses the
template into one line; the exact text is not load-bearing for any property
here, only that this warning is the one emitted. -/
def noAutoApplyMsg (command : String) : String :=
  "Terraform stack is not up-to-date and autoApply is not enabled. Please run " ++
    "garden plugins terraform " ++ command ++ " to make sure the stack is in the intended state."

/-- The externally visible result of a status check, common.ts `getStackStatus`
return value: `\x7b ready, outputs \x7d`. -/
structure StackStatus where
  ready : Bool
  outputs : List (String × TfJson)

/-- Environment for one `getStackStatus` call: what the validate invocations
return, what `terraform plan` returns, and the decoded body `terraform output
-json` would return (consumed only if outputs are fetched). -/
structure StatusEnv where
  validateEnv : ValidateEnv
  planResult : ProcessResult
  outputRes : List (String × TfJson)

/-- Side effects of a `getStackStatus` call: the validate trace, whether plan
ran, how many `terraform output -json` runs happened, and the operator
warnings emitted through `logEntry.warn`. -/
structure StatusTrace where
  validateTrace : ValidateTrace
  planCalls : Nat
  outputCalls : Nat
  warnings : List String

/-- The argument list `getStackStatus` passes to `terraform plan`,
common.ts lines 125-134. -/
def planArgs (root : String) (vars : Option (List (String × Primitive))) : List String :=
  ["plan", "-detailed-exitcode", "-input=false", "-refresh=false", "-lock=false"] ++
    (prepareVariables root vars).args

/-- common.ts lines 109-167, `getStackStatus`.  Validation runs first and its
error propagates; then the plan exit code is classified.  The `terraform
output -json` invocation is the Process Runner collaborator and is assumed to
succeed; its decoded body is supplied by the environment. -/
def getStackStatus (env : StatusEnv) (autoApply : Bool) (applyCommand : String) :
    Except TfError StackStatus × StatusTrace :=
  match tfValidate env.validateEnv with
  | (Except.error e, t) => (Except.error e, ⟨t, 0, 0, []⟩)
  | (Except.ok _, t) =>
    let plan := env.planResult
    if plan.exitCode = 0 then
      (Except.ok ⟨true, getTfOutputs env.outputRes⟩, ⟨t, 1, 1, []⟩)
    else if plan.exitCode = 1 then
      (Except.ok ⟨false, []⟩, ⟨t, 1, 0, []⟩)
    else if plan.exitCode = 2 then
      if autoApply then
        (Except.ok ⟨false, []⟩, ⟨t, 1, 0, []⟩)
      else
        (Except.ok ⟨true, getTfOutputs env.outputRes⟩, ⟨t, 1, 1, [noAutoApplyMsg applyCommand]⟩)
    else
      (Except.error (TfError.pluginError
          ("Unexpected exit code from `terraform plan`: " ++ toString plan.exitCode)
          plan.exitCode plan.stdout plan.stderr),
        ⟨t, 1, 0, []⟩)

/-- How the spawned apply process terminates: a process-level error event, or
a close event with an exit code. -/
inductive ProcTermination where
  | procError (message : String)
  | close (code : Int)
deriving DecidableEq

/-- Environment for one `applyStack` call: the chunks the child process emits
on stdout and stderr, and its terminal event. -/
structure ApplyEnv where
  stdoutChunks : List String
  stderrChunks : List String
  outcome : ProcTermination
deriving DecidableEq

/-- common.ts lines 169-224, `applyStack`.  The data handlers accumulate all
stdout and stderr chunks by string concatenation; the close handler resolves
on code 0 and otherwise rejects with a RuntimeError carrying the accumulated
buffers and the code; an error event rejects with that error. -/
def applyStack (env : ApplyEnv) : Except TfError Unit :=
  let stdout := String.join env.stdoutChunks
  let stderr := String.join env.stderrChunks
  match env.outcome with
  | ProcTermination.procError m => Except.error (TfError.processError m)
  | ProcTermination.close code =>
    if code = 0 then Except.ok ()
    else
      Except.error (TfError.runtimeError
        ("Error when applying Terraform stack:\n" ++ stderr) stdout stderr code)

/-- The fields of a resolved module that commands.ts `findModule` inspects. -/
structure TfModule where
  name : String
  type : String
  compatibleTypes : List String
deriving DecidableEq

/-- util/util `findByName` (repository code referenced from commands.ts):
`items.find((i) => i.name === name)`. -/
def findByName (modules : List TfModule) (n : String) : Option TfModule :=
  modules.find? (fun m => m.name == n)

/-- commands.ts lines 76-96, `findModule`.  `args.head?` models `args[0]`
(`none` when no first positional argument was given); the JavaScript truthiness
check `if (!name)` fires when the argument is absent or is the empty string. -/
def findModule (modules : List TfModule) (args : List String) : Except TfError TfModule :=
  match args.head? with
  | none => Except.error (TfError.parameterError "The first command argument must be a module name.")
  | some n =>
    if n = "" then
      Except.error (TfError.parameterError "The first command argument must be a module name.")
    else
      match findByName modules n with
      | none => Except.error (TfError.parameterError ("Could not find module " ++ n ++ "."))
      | some m =>
        if m.compatibleTypes.contains "terraform" then Except.ok m
        else
          Except.error (TfError.parameterError
            ("Module " ++ n ++ " is not a terraform module."))

/-- C1 (code_bug evidence): when the first validation reports invalid with the
recoverable summary "Module not installed" and the retried validation STILL
reports invalid (JSON boolean `false`, as terraform emits), `tfValidate`
performs exactly one init call and one retried validate call (trace ⟨1, 2⟩)
but then resolves successfully instead of throwing ConfigurationError, because
common.ts line 64 compares `retryRes.valid` with the string `"false"`. -/
theorem tfValidate_retry_swallows_invalid :
    tfValidate
      ⟨⟨JsValue.bool false, [⟨"error", "Module not installed", none⟩]⟩,
       ⟨JsValue.bool false, [⟨"error", "Module not installed", none⟩]⟩⟩ =
      (Except.ok (), ⟨1, 2⟩) := by
  rfl

/-- C9: `prepareVariables` with an absent or undefined variables argument
behaves exactly like the empty-map case: empty argument list, no write. -/
theorem prepareVariables_undefined_like_empty (root : String) :
    prepareVariables root none = prepareVariables root (some []) ∧
    prepareVariables root none = { args := [], writes := [] } := by
  constructor <;> rfl

/-- C5: `prepareVariables root (some V)` returns the empty argument list and
performs no write iff `V` is empty; for nonempty `V` it writes the JSON
serialization of `V` to `<root>/garden.tfvars.json` and returns the
two-element argument list referencing that path. -/
theorem prepareVariables_empty_iff (root : String) (V : List (String × Primitive)) :
    (((prepareVariables root (some V)).args = [] ∧
        (prepareVariables root (some V)).writes = []) ↔ V = []) ∧
    (V ≠ [] →
      prepareVariables root (some V) =
        { args := ["-var-file", pathResolve root "garden.tfvars.json"],
          writes := [(pathResolve root "garden.tfvars.json", jsonStringifyPrimMap V)] }) := by
  cases V with
  | nil => simp [prepareVariables]
  | cons kv rest => simp [prepareVariables]

theorem prepareVariables_empty_iff_witness :
    prepareVariables "/project" (some [("ns", Primitive.str "dev")]) =
      { args := ["-var-file", pathResolve "/project" "garden.tfvars.json"],
        writes := [(pathResolve "/project" "garden.tfvars.json",
          jsonStringifyPrimMap [("ns", Primitive.str "dev")])] } :=
  (prepareVariables_empty_iff "/project" [("ns", Primitive.str "dev")]).2 (by decide)

/-- C6: `applyStack` resolves when the process close code is 0, and for any
non-zero close code rejects with a RuntimeError carrying the accumulated
stdout, the accumulated stderr, and the exit code. -/
theorem applyStack_close_code_contract (env : ApplyEnv) (code : Int)
    (hc : env.outcome = ProcTermination.close code) :
    (code = 0 → applyStack env = Except.ok ()) ∧
    (code ≠ 0 →
      applyStack env = Except.error (TfError.runtimeError
        ("Error when applying Terraform stack:\n" ++ String.join env.stderrChunks)
        (String.join env.stdoutChunks) (String.join env.stderrChunks) code)) := by
  constructor
  · intro h0
    simp [applyStack, hc, h0]
  · intro hne
    simp [applyStack, hc, hne]

theorem applyStack_close_code_contract_witness :
    applyStack ⟨["line1\n", "line2\n"], ["warn"], ProcTermination.close 0⟩ = Except.ok () ∧
    applyStack ⟨["out"], ["boom"], ProcTermination.close 1⟩ =
      Except.error (TfError.runtimeError
        ("Error when applying Terraform stack:\n" ++ String.join ["boom"])
        (String.join ["out"]) (String.join ["boom"]) 1) :=
  ⟨(applyStack_close_code_contract ⟨["line1\n", "line2\n"], ["warn"], ProcTermination.close 0⟩ 0
      rfl).1 rfl,
   (applyStack_close_code_contract ⟨["out"], ["boom"], ProcTermination.close 1⟩ 1
      rfl).2 (by decide)⟩

/-- C4: after a successful validation, plan exit code 0 yields
`ready: true` with the decoded outputs, and exit code 1 yields
`ready: false` with empty outputs, without throwing. -/
theorem getStackStatus_exit0_exit1 (env : StatusEnv) (autoApply : Bool)
    (applyCommand : String) (t : ValidateTrace)
    (hv : tfValidate env.validateEnv = (Except.ok (), t)) :
    (env.planResult.exitCode = 0 →
      getStackStatus env autoApply applyCommand =
        (Except.ok ⟨true, getTfOutputs env.outputRes⟩, ⟨t, 1, 1, []⟩)) ∧
    (env.planResult.exitCode = 1 →
      getStackStatus env autoApply applyCommand =
        (Except.ok ⟨false, []⟩, ⟨t, 1, 0, []⟩)) := by
  unfold getStackStatus
  rw [hv]
  constructor
  · intro h0
    simp [h0]
  · intro h1
    simp [h1]

theorem getStackStatus_exit0_exit1_witness :
    getStackStatus
        ⟨⟨⟨JsValue.bool true, []⟩, ⟨JsValue.bool true, []⟩⟩, ⟨0, "", ""⟩,
          [("x", TfJson.obj [("value", TfJson.prim (Primitive.num 1))])]⟩ false "apply-root" =
      (Except.ok ⟨true, getTfOutputs [("x", TfJson.obj [("value", TfJson.prim (Primitive.num 1))])]⟩,
        ⟨⟨0, 1⟩, 1, 1, []⟩) ∧
    getStackStatus
        ⟨⟨⟨JsValue.bool true, []⟩, ⟨JsValue.bool true, []⟩⟩, ⟨1, "", ""⟩, []⟩ false "apply-root" =
      (Except.ok ⟨false, []⟩, ⟨⟨0, 1⟩, 1, 0, []⟩) :=
  ⟨(getStackStatus_exit0_exit1 _ false "apply-root" ⟨0, 1⟩ (by rfl)).1 rfl,
   (getStackStatus_exit0_exit1 _ false "apply-root" ⟨0, 1⟩ (by rfl)).2 rfl⟩

/-- C2: after a successful validation, plan exit code 2 triggers the
auto-remediation policy: with `autoApply = true` the result is
`ready: false` with empty outputs and no output fetch; with
`autoApply = false` the no-auto-apply warning is emitted and the result is
`ready: true` with the decoded current outputs. -/
theorem getStackStatus_drifted_policy (env : StatusEnv) (applyCommand : String)
    (t : ValidateTrace)
    (hv : tfValidate env.validateEnv = (Except.ok (), t))
    (h2 : env.planResult.exitCode = 2) :
    getStackStatus env true applyCommand = (Except.ok ⟨false, []⟩, ⟨t, 1, 0, []⟩) ∧
    getStackStatus env false applyCommand =
      (Except.ok ⟨true, getTfOutputs env.outputRes⟩,
        ⟨t, 1, 1, [noAutoApplyMsg applyCommand]⟩) := by
  unfold getStackStatus
  rw [hv]
  constructor <;> simp [h2]

theorem getStackStatus_drifted_policy_witness :
    getStackStatus
        ⟨⟨⟨JsValue.bool true, []⟩, ⟨JsValue.bool true, []⟩⟩, ⟨2, "", ""⟩,
          [("x", TfJson.obj [("value", TfJson.prim (Primitive.num 1))])]⟩ true "apply-root" =
      (Except.ok ⟨false, []⟩, ⟨⟨0, 1⟩, 1, 0, []⟩) ∧
    getStackStatus
        ⟨⟨⟨JsValue.bool true, []⟩, ⟨JsValue.bool true, []⟩⟩, ⟨2, "", ""⟩,
          [("x", TfJson.obj [("value", TfJson.prim (Primitive.num 1))])]⟩ false "apply-root" =
      (Except.ok ⟨true, getTfOutputs [("x", TfJson.obj [("value", TfJson.prim (Primitive.num 1))])]⟩,
        ⟨⟨0, 1⟩, 1, 1, [noAutoApplyMsg "apply-root"]⟩) :=
  ⟨(getStackStatus_drifted_policy _ "apply-root" ⟨0, 1⟩ (by rfl) (by rfl)).1,
   (getStackStatus_drifted_policy _ "apply-root" ⟨0, 1⟩ (by rfl) (by rfl)).2⟩

/-- C3: after a successful validation, `getStackStatus` never throws for plan
exit codes 0, 1 and 2, and for any other plan exit code it throws a
PluginError carrying that exit code and the captured stdout and stderr. -/
theorem getStackStatus_exit_code_contract (env : StatusEnv) (autoApply : Bool)
    (applyCommand : String) (t : ValidateTrace)
    (hv : tfValidate env.validateEnv = (Except.ok (), t)) :
    ((env.planResult.exitCode = 0 ∨ env.planResult.exitCode = 1 ∨ env.planResult.exitCode = 2) →
      ∃ s, (getStackStatus env autoApply applyCommand).1 = Except.ok s) ∧
    (env.planResult.exitCode ≠ 0 → env.planResult.exitCode ≠ 1 → env.planResult.exitCode ≠ 2 →
      (getStackStatus env autoApply applyCommand).1 =
        Except.error (TfError.pluginError
          ("Unexpected exit code from `terraform plan`: " ++ toString env.planResult.exitCode)
          env.planResult.exitCode env.planResult.stdout env.planResult.stderr)) := by
  unfold getStackStatus
  rw [hv]
  constructor
  · rintro (h | h | h)
    · exact ⟨⟨true, getTfOutputs env.outputRes⟩, by simp [h]⟩
    · exact ⟨⟨false, []⟩, by simp [h]⟩
    · cases autoApply with
      | false => exact ⟨⟨true, getTfOutputs env.outputRes⟩, by simp [h]⟩
      | true => exact ⟨⟨false, []⟩, by simp [h]⟩
  · intro h0 h1 h2
    simp [h0, h1, h2]

theorem getStackStatus_exit_code_contract_witness :
    (getStackStatus
        ⟨⟨⟨JsValue.bool true, []⟩, ⟨JsValue.bool true, []⟩⟩, ⟨3, "plan out", "plan err"⟩, []⟩
        false "apply-root").1 =
      Except.error (TfError.pluginError
        ("Unexpected exit code from `terraform plan`: " ++ toString (3 : Int))
        3 "plan out" "plan err") :=
  (getStackStatus_exit_code_contract _ false "apply-root" ⟨0, 1⟩ (by rfl)).2
    (by decide) (by decide) (by decide)

/-- Helper: the mapped summary list contains a phrase iff some diagnostic in
the list has exactly that summary (the source compares with `includes`,
JavaScript strict string equality). -/
theorem summaries_contains_iff (ds : List Diagnostic) (s : String) :
    (ds.map (fun d => d.summary)).contains s = true ↔ ∃ d ∈ ds, d.summary = s := by
  simp [List.contains, List.elem_iff, List.mem_map]

/-- C7: when the first validation reports invalid and no diagnostic summary is
one of the two recoverable phrases, `tfValidate` fails immediately with a
ConfigurationError, performing zero init calls and a single validate call, and
the error message is every diagnostic formatted as
`<Severity>: <summary>\n<detail>` joined with newlines under the header. -/
theorem tfValidate_unrecoverable_fails_fast (env : ValidateEnv)
    (hinv : env.firstRes.valid = JsValue.bool false)
    (hnr : ∀ d ∈ env.firstRes.diagnostics,
      d.summary ≠ "Could not satisfy plugin requirements" ∧
        d.summary ≠ "Module not installed") :
    tfValidate env =
      (Except.error (TfError.configurationError
        ("Failed validating Terraform configuration:\n\n" ++
          String.intercalate "\n" (env.firstRes.diagnostics.map formatDiagnostic))
        env.firstRes), ⟨0, 1⟩) := by
  have h1 : ¬∃ d ∈ env.firstRes.diagnostics,
      d.summary = "Could not satisfy plugin requirements" := by
    rintro ⟨d, hd, hs⟩
    exact (hnr d hd).1 hs
  have h2 : ¬∃ d ∈ env.firstRes.diagnostics, d.summary = "Module not installed" := by
    rintro ⟨d, hd, hs⟩
    exact (hnr d hd).2 hs
  simp [tfValidate, hinv, h1, h2, tfValidationError, dedent]

theorem tfValidate_unrecoverable_fails_fast_witness :
    tfValidate
        ⟨⟨JsValue.bool false, [⟨"error", "Some other error", some "a detail"⟩]⟩,
         ⟨JsValue.bool true, []⟩⟩ =
      (Except.error (TfError.configurationError
        ("Failed validating Terraform configuration:\n\n" ++
          String.intercalate "\n"
            (([⟨"error", "Some other error", some "a detail"⟩] : List Diagnostic).map
              formatDiagnostic))
        ⟨JsValue.bool false, [⟨"error", "Some other error", some "a detail"⟩]⟩), ⟨0, 1⟩) :=
  tfValidate_unrecoverable_fails_fast
    ⟨⟨JsValue.bool false, [⟨"error", "Some other error", some "a detail"⟩]⟩,
     ⟨JsValue.bool true, []⟩⟩ rfl (by decide)

/-- C10: given an invalid first validation, the init recovery action runs
(exactly once) iff some diagnostic summary is exactly
"Could not satisfy plugin requirements" or exactly "Module not installed". -/
theorem tfValidate_init_iff_recoverable (env : ValidateEnv)
    (hinv : env.firstRes.valid = JsValue.bool false) :
    (tfValidate env).2.initCalls = 1 ↔
      ∃ d ∈ env.firstRes.diagnostics,
        d.summary = "Could not satisfy plugin requirements" ∨
          d.summary = "Module not installed" := by
  by_cases hA : (env.firstRes.diagnostics.map (fun d => d.summary)).contains
      "Could not satisfy plugin requirements" = true
  · obtain ⟨d, hd, hs⟩ := (summaries_contains_iff _ _).1 hA
    refine iff_of_true ?_ ⟨d, hd, Or.inl hs⟩
    simp only [tfValidate, hinv, hA, Bool.true_or, if_true, eq_self_iff_true]
    split <;> rfl
  · by_cases hB : (env.firstRes.diagnostics.map (fun d => d.summary)).contains
        "Module not installed" = true
    · obtain ⟨d, hd, hs⟩ := (summaries_contains_iff _ _).1 hB
      refine iff_of_true ?_ ⟨d, hd, Or.inr hs⟩
      simp only [tfValidate, hinv, hB, Bool.or_true, if_true, eq_self_iff_true]
      split <;> rfl
    · refine iff_of_false ?_ ?_
      · have hA2 : ¬∃ d ∈ env.firstRes.diagnostics,
            d.summary = "Could not satisfy plugin requirements" := fun hex =>
          hA ((summaries_contains_iff _ _).2 hex)
        have hB2 : ¬∃ d ∈ env.firstRes.diagnostics,
            d.summary = "Module not installed" := fun hex =>
          hB ((summaries_contains_iff _ _).2 hex)
        simp [tfValidate, hinv, hA2, hB2]
      · rintro ⟨d, hd, hs | hs⟩
        · exact hA ((summaries_contains_iff _ _).2 ⟨d, hd, hs⟩)
        · exact hB ((summaries_contains_iff _ _).2 ⟨d, hd, hs⟩)

theorem tfValidate_init_iff_recoverable_witness :
    (tfValidate
        ⟨⟨JsValue.bool false, [⟨"error", "Module not installed", none⟩]⟩,
         ⟨JsValue.bool true, []⟩⟩).2.initCalls = 1 :=
  (tfValidate_init_iff_recoverable
      ⟨⟨JsValue.bool false, [⟨"error", "Module not installed", none⟩]⟩,
       ⟨JsValue.bool true, []⟩⟩ rfl).2
    ⟨⟨"error", "Module not installed", none⟩, by decide, Or.inr rfl⟩

/-- Helper: under the orchestrator invariant that module names are nonempty
identifiers, no module is found for the empty name. -/
theorem findByName_empty_name (modules : List TfModule)
    (hnames : ∀ m ∈ modules, m.name ≠ "") :
    findByName modules "" = none := by
  cases hfb : findByName modules "" with
  | none => rfl
  | some m =>
    unfold findByName at hfb
    have hm := List.mem_of_find?_eq_some hfb
    have hp := List.find?_some hfb
    exact absurd (by simpa using hp) (hnames m hm)

/-- C8: assuming module names are nonempty (an invariant of module
configuration validation upstream), the module passthrough lookup throws
ParameterError in exactly these cases: no first positional argument, no module
of the given name, or a named module whose compatible types do not include
"terraform". -/
theorem findModule_parameter_error_iff (modules : List TfModule) (args : List String)
    (hnames : ∀ m ∈ modules, m.name ≠ "") :
    (∃ msg, findModule modules args = Except.error (TfError.parameterError msg)) ↔
      (args.head? = none ∨
       (∃ n, args.head? = some n ∧ findByName modules n = none) ∨
       (∃ n m, args.head? = some n ∧ findByName modules n = some m ∧
         m.compatibleTypes.contains "terraform" = false)) := by
  cases args with
  | nil =>
    simp [findModule]
  | cons n rest =>
    by_cases hn : n = ""
    · subst hn
      have hfb := findByName_empty_name modules hnames
      constructor
      · intro _
        exact Or.inr (Or.inl ⟨"", rfl, hfb⟩)
      · intro _
        exact ⟨"The first command argument must be a module name.", by simp [findModule]⟩
    · cases hfb : findByName modules n with
      | none =>
        constructor
        · intro _
          exact Or.inr (Or.inl ⟨n, rfl, hfb⟩)
        · intro _
          exact ⟨"Could not find module " ++ n ++ ".", by simp [findModule, hn, hfb]⟩
      | some m =>
        cases hct : m.compatibleTypes.contains "terraform" with
        | true =>
          have hmem : "terraform" ∈ m.compatibleTypes := by
            simpa [List.contains, List.elem_iff] using hct
          constructor
          · rintro ⟨msg, hmsg⟩
            simp [findModule, hn, hfb, hmem] at hmsg
          · rintro (h | ⟨n2, hn2, hfb2⟩ | ⟨n2, m2, hn2, hfb2, hct2⟩)
            · simp at h
            · have hnn : n = n2 := by simpa using hn2
              subst hnn
              rw [hfb] at hfb2
              simp at hfb2
            · have hnn : n = n2 := by simpa using hn2
              subst hnn
              rw [hfb] at hfb2
              have hmm : m = m2 := by simpa using hfb2
              subst hmm
              rw [hct] at hct2
              simp at hct2
        | false =>
          have hmem : "terraform" ∉ m.compatibleTypes := by
            intro hin
            rw [show m.compatibleTypes.contains "terraform" = true by
              simpa [List.contains, List.elem_iff] using hin] at hct
            exact absurd hct (by simp)
          constructor
          · intro _
            exact Or.inr (Or.inr ⟨n, m, rfl, hfb, hct⟩)
          · intro _
            exact ⟨"Module " ++ n ++ " is not a terraform module.",
              by simp [findModule, hn, hfb, hmem]⟩

theorem findModule_parameter_error_iff_witness :
    ∃ msg, findModule [⟨"vpc", "terraform", ["terraform"]⟩] ["db"] =
      Except.error (TfError.parameterError msg) :=
  (findModule_parameter_error_iff [⟨"vpc", "terraform", ["terraform"]⟩] ["db"]
      (by decide)).2
    (Or.inr (Or.inl ⟨"db", rfl, by rfl⟩))
